import Mathlib

/-!
Shallow embedding of the host-side supervisor of the brood_hostside package
(`brood_hostside/libabc.py` and `brood_hostside/libbase.py`), restricted to the
protocol executor, the memory-watermark coordinator, the deadline-paced
sampling loop, the heater actuation sequencing and the backoff counter.

Python `float` values are modelled as `ℚ`; `bytes` values as `String`
(the board replies are UTF-8 text); the serial transport is modelled as a
stream `Nat → String` giving the board's reply to the n-th wire command, in
accordance with the design assumption that the remote side always eventually
answers once a session is live.  Wall-clock time is modelled explicitly where
a claim needs it.
-/

/- ===== Python string primitives used by the source ===== -/

/-- does `pat` match at the head of `hay`? (auxiliary for substring search) -/
def matchesHere : List Char → List Char → Bool
  | [], _ => true
  | _ :: _, [] => false
  | p :: ps, c :: cs => decide (p = c) && matchesHere ps cs

def hasSubAux (pat : List Char) : List Char → Bool
  | [] => matchesHere pat []
  | c :: rest => matchesHere pat (c :: rest) || hasSubAux pat rest

/-- Python `pat in hay` for strings. -/
def strContainsSub (hay pat : String) : Bool := hasSubAux pat.data hay.data

/-- Python `s.replace('\r\n', repl)` for a one-character replacement
(left-to-right, non-overlapping). -/
def replaceCRLF (repl : Char) : List Char → List Char
  | '\r' :: '\n' :: rest => repl :: replaceCRLF repl rest
  | c :: rest => c :: replaceCRLF repl rest
  | [] => []

/-- Source: `str(resp.decode('utf-8')).replace('\r\n', ',')` — the response cleaning
step of `safe_exec_abc` (libabc.py:1455). -/
def cleanResp (s : String) : String := String.mk (replaceCRLF ',' s.data)

/-- Python `s.rstrip('\r\n')`. -/
def rstripCRLF (s : String) : String :=
  String.mk ((s.data.reverse.dropWhile (fun c => c = '\r' || c = '\n')).reverse)

/-- split a character list at every separator character (keeping empty
parts, like Python `str.split(sep)`). -/
def splitChars (p : Char → Bool) : List Char → List (List Char)
  | [] => [[]]
  | c :: rest =>
    if p c then [] :: splitChars p rest
    else
      match splitChars p rest with
      | [] => [[c]]
      | h :: t => (c :: h) :: t

/-- Python `s.split()` (split on whitespace runs, discarding empty parts). -/
def pySplitWs (s : String) : List String :=
  ((splitChars (fun c => c = ' ' || c = '\t' || c = '\n' || c = '\r')
      s.data).filter (fun t => !t.isEmpty)).map String.mk

/-- decimal digit-string value; `none` when empty or a non-digit appears. -/
def digitsVal (cs : List Char) : Option Nat :=
  if cs = [] then none
  else
    cs.foldl
      (fun acc c =>
        match acc with
        | none => none
        | some v => if c.isDigit then some (v * 10 + (c.toNat - 48)) else none)
      (some 0)

/-- Python `int(s)` on tokens produced by `str.split()` (optional sign and
decimal digits; the underscore/whitespace liberties of CPython are not needed
for board replies). `none` models `ValueError`. -/
def pyInt (s : String) : Option Int :=
  match s.data with
  | '-' :: rest => (digitsVal rest).map (fun n => -(n : Int))
  | '+' :: rest => (digitsVal rest).map (fun n => (n : Int))
  | cs => (digitsVal cs).map (fun n => (n : Int))

/-- magnitude part of Python `float(s)` (decimal notation, no exponent —
the heater status fields use plain decimal notation). -/
def pyFloatMag (cs : List Char) : Option ℚ :=
  match cs.span (fun c => !(c = '.')) with
  | (intPart, []) => (digitsVal intPart).map (fun n => (n : ℚ))
  | (intPart, _ :: frac) =>
    if intPart = [] && frac = [] then none
    else
      match (if intPart = [] then some 0 else digitsVal intPart),
        (if frac = [] then some 0 else digitsVal frac) with
      | some i, some f => some ((i : ℚ) + (f : ℚ) / ((10 : ℚ) ^ frac.length))
      | _, _ => none

/-- Python `float(s)`; `none` models `ValueError`. -/
def pyFloat (s : String) : Option ℚ :=
  match s.data with
  | '-' :: rest => (pyFloatMag rest).map (fun q => -q)
  | '+' :: rest => pyFloatMag rest
  | cs => pyFloatMag cs

/-- Python `round(q, 2)`.  (CPython rounds ties to even; board memory
percentages never hit an exact tie in any statement below, so the rounding
mode is immaterial there.) -/
def round2 (q : ℚ) : ℚ := ((round (q * 100) : ℤ) : ℚ) / 100

/- ===== the response tokenizer: `re.findall(r'\$(.+?)\*', s)` ===== -/

/-- one lazy match attempt for the body of `\$(.+?)\*` given the characters
after a literal `$`: at least one non-newline character, then the earliest
possible literal `*`.  Returns the body and the remaining characters. -/
def tokAfter : List Char → List Char → Option (List Char × List Char)
  | _, [] => none
  | acc, c :: rest =>
    if c = '\n' then none
    else if c = '*' && !(acc = []) then some (acc.reverse, rest)
    else tokAfter (c :: acc) rest

/-- fuelled scan for all (non-overlapping, leftmost) matches. -/
def findTokensAux : Nat → List Char → List (List Char)
  | 0, _ => []
  | _ + 1, [] => []
  | fuel + 1, c :: rest =>
    if c = '$' then
      match tokAfter [] rest with
      | some (body, rest2) => body :: findTokensAux fuel rest2
      | none => findTokensAux fuel rest
    else findTokensAux fuel rest

/-- Source: `re.findall(r'\$(.+?)\*', s)` — the response tokenizer of
`safe_exec_abc` (libabc.py:1475). -/
def pyFindall (s : String) : List String :=
  (findTokensAux (s.data.length + 1) s.data).map String.mk

/- ===== BackoffCtr (libbase.py:303-360) ===== -/

/-- Source: `BackoffCtr` instance state: `_n` hits at the current level. -/
structure BackoffCtr where
  per_level : Nat
  max_count : Nat
  _n : Nat
  cur_level : Nat
deriving DecidableEq, Repr

/-- Source: `BackoffCtr.__init__` (which calls `reset()`): `_n = 0, cur_level = 1`. -/
def BackoffCtr.init (per_level max_count : Nat) : BackoffCtr :=
  { per_level := per_level, max_count := max_count, _n := 0, cur_level := 1 }

/-- Source: `BackoffCtr._climb_level` (libbase.py:342-347): `_n = 0`, the level
doubles, and `cur_level = max_count` restores the cap when exceeded. -/
def BackoffCtr.climb_level (c : BackoffCtr) : BackoffCtr :=
  { c with
    _n := 0
    cur_level :=
      if c.cur_level * 2 > c.max_count then c.max_count else c.cur_level * 2 }

/-- Source: `BackoffCtr.hit` (libbase.py:329-335): `_n += 1`, then climb and yield
`True` when `_n >= cur_level * per_level`.  Returns the yielded Bool and the
updated counter. -/
def BackoffCtr.hit (c : BackoffCtr) : Bool × BackoffCtr :=
  if c._n + 1 ≥ c.cur_level * c.per_level then
    (true, BackoffCtr.climb_level { c with _n := c._n + 1 })
  else (false, { c with _n := c._n + 1 })

/-- Source: `BackoffCtr.reset` (libbase.py:349-352). -/
def BackoffCtr.reset (c : BackoffCtr) : BackoffCtr :=
  { c with _n := 0, cur_level := 1 }

/-- Source: `BackoffCtr.hitok` = `reset` (libbase.py:354-356). -/
def BackoffCtr.hitok (c : BackoffCtr) : BackoffCtr := c.reset

/-- an operation applied to a `BackoffCtr`. -/
inductive BOp where
  | hitOp
  | resetOp
deriving DecidableEq, Repr

/-- run a finite sequence of `hit()`/`reset()` calls. -/
def BackoffCtr.runOps (c : BackoffCtr) : List BOp → BackoffCtr
  | [] => c
  | BOp.hitOp :: rest => (c.hit).2.runOps rest
  | BOp.resetOp :: rest => (c.reset).runOps rest

/-- the Bools yielded by `k` successive `hit()` calls. -/
def BackoffCtr.hitRun (c : BackoffCtr) : Nat → List Bool
  | 0 => []
  | k + 1 =>
    let p := c.hit
    p.1 :: p.2.hitRun k

/-- the 1-based call numbers at which `k` successive `hit()` calls yield
`True`. -/
def BackoffCtr.trueCalls (c : BackoffCtr) (k : Nat) : List Nat :=
  (c.hitRun k).enum.filterMap (fun p => if p.2 then some (p.1 + 1) else none)

/-- invariant actually maintained by the code: the current level is a power
of two, or it has been capped to `max_count`; and it never exceeds
`max max_count 1`. -/
def BackoffInv (c : BackoffCtr) : Prop :=
  ((∃ k, c.cur_level = 2 ^ k) ∨ c.cur_level = c.max_count) ∧
    c.cur_level ≤ max c.max_count 1

/- ===== supervisory engine state (ABCHandle, libabc.py) ===== -/

/-- wire commands issued by the host (the command kinds appearing in the
embedded operations; the interpolated Python command strings are represented
structurally). -/
inductive WireCmd where
  | hActivate (state : Bool) (idx : Option Int)
  | hObjective (t : ℚ) (idx : Option Int)
  | hStatusQuery
  | memQuery
  | gcCollect
  | generic (s : String)
deriving DecidableEq, Repr

/-- host-side observable events: wire transactions, `time.sleep` calls, and
execution markers used to model the sampling callbacks of `loop`. -/
inductive Ev where
  | wire (c : WireCmd)
  | sleepEv (d : ℚ)
  | mark (j : Nat)
deriving DecidableEq, Repr

/-- Python exceptions raised by the embedded operations.
`garbled` is `ABCGarbledRespError` (payload: command / attempt count / text
where the raise site provides them); `tooShort` is `ABCTooShortRespError`;
the remaining constructors model built-in Python exceptions. -/
inductive PyErr where
  | garbled (cmd : Option WireCmd) (ntries : Option Nat) (resp : String)
  | tooShort
  | valueError (tok : String)
  | zeroDiv
  | typeErr
  | indexErr
  | unboundLocal (v : String)
deriving DecidableEq, Repr

/-- does `except ABCGarbledRespError` catch this? -/
def isGarbled : PyErr → Bool
  | PyErr.garbled _ _ _ => true
  | _ => false

/-- does `except ABCTooShortRespError` catch this? -/
def isTooShort : PyErr → Bool
  | PyErr.tooShort => true
  | _ => false

/-- Source: `except (ABCTooShortRespError, ABCGarbledRespError)` — the fence used by
`loop` (libabc.py:1209). -/
def isCaughtKind (e : PyErr) : Bool := isTooShort e || isGarbled e

/-- memory status dict built by `get_mem_status`. -/
structure MemStatus where
  free : Int
  alloc : Int
  total : Int
  pct : ℚ
deriving DecidableEq, Repr

/-- the mutable per-instance state of `ABCHandle` that the embedded
operations touch, plus the transport stream and the event trace. -/
structure ABCSt where
  transport : Nat → String
  wire_sent : Nat
  pyb_cmd_cnt : Nat
  last_pyb_ntries : Nat
  last_pyb_resp : Option String
  last_pyb_fields : List String
  mem_usage : Option MemStatus
  upy_status : Bool
  heaters_status : Bool
  heater_def_tmp : ℚ
  active_heaters : List Nat
  cnt_caught_exceptions : Nat
  trace : List Ev

/-- Source: `self._pyb.exec(cmd)`: one wire transaction; the reply is the next
element of the transport stream. -/
def pybExec (cmd : WireCmd) (s : ABCSt) : String × ABCSt :=
  (s.transport s.wire_sent,
   { s with wire_sent := s.wire_sent + 1, trace := s.trace ++ [Ev.wire cmd] })

/-- Source: `time.sleep(d)` as a trace event. -/
def pySleep (d : ℚ) (s : ABCSt) : ABCSt :=
  { s with trace := s.trace ++ [Ev.sleepEv d] }

/-- the contamination marker checked by `safe_exec_abc`
(`"GC: total" in _resp`, libabc.py:1456). -/
def gcMarker : String := "GC: total"

/-- contamination test on a decoded, cleaned reply. -/
def contaminated (s : String) : Bool := strContainsSub s gcMarker

/- ===== protocol executor: safe_exec_abc (libabc.py:1423-1516) ===== -/

/-- the retry loop `while n_tries < retries` of `safe_exec_abc`
(libabc.py:1449-1464).  `fuel = retries - n_tries`; one iteration sends the
command, increments `_pyb_cmd_cnt`, decodes and cleans the reply, and either
accepts it (no marker) or counts the attempt and retries.  Returns
`(data_ok, n_tries, resp, _resp)`, the two `Option`s being the Python locals
`resp`/`_resp` (unassigned exactly when the body never ran). -/
def execAttempts (cmd : WireCmd) :
    Nat → Nat → Option String → Option String → ABCSt →
      (Bool × Nat × Option String × Option String) × ABCSt
  | 0, n, raw, last, s => ((false, n, raw, last), s)
  | fuel + 1, n, _, _, s =>
    let p := pybExec cmd s
    let s2 := { p.2 with pyb_cmd_cnt := p.2.pyb_cmd_cnt + 1 }
    let r := cleanResp p.1
    if contaminated r then execAttempts cmd fuel (n + 1) (some p.1) (some r) s2
    else ((true, n, some p.1, some r), s2)

/-- Source: `minlen is not None and ml < minlen` (libabc.py:1509-1511). -/
def minlenViolated : Option Nat → String → Bool
  | none, _ => false
  | some ml, raw => decide (raw.length < ml)

/-- Source: `nfields is not None and nfields != nf` (libabc.py:1512-1514). -/
def nfieldsViolated : Option Nat → Nat → Bool
  | none, _ => false
  | some k, nf => decide (k ≠ nf)

/-- Source: `safe_exec_abc` minus its watermark pre-check — the path taken when
`watermark=None` (libabc.py:1449-1516): run the retry loop, store
`_last_pyb_ntries`, raise `ABCGarbledRespError` when no attempt was clean
(reading the possibly-unassigned local `_resp` in the failure message),
otherwise tokenize, store debug state, apply the `minlen`/`nfields` gates
(`ABCTooShortRespError`), and return the raw accepted bytes. -/
def safeExecCore (cmd : WireCmd) (retries : Nat) (minlen nfields : Option Nat)
    (s : ABCSt) : Except PyErr String × ABCSt :=
  let r0 := execAttempts cmd retries 0 none none s
  let dataOk := r0.1.1
  let nTries := r0.1.2.1
  let rawOpt := r0.1.2.2.1
  let respOpt := r0.1.2.2.2
  let s2 := { r0.2 with last_pyb_ntries := nTries }
  if dataOk then
    match rawOpt, respOpt with
    | some raw, some r =>
      let m := pyFindall r
      let s3 := { s2 with last_pyb_resp := some r, last_pyb_fields := m }
      if minlenViolated minlen raw then (Except.error PyErr.tooShort, s3)
      else if nfieldsViolated nfields m.length then (Except.error PyErr.tooShort, s3)
      else (Except.ok raw, s3)
    | _, _ => (Except.error (PyErr.unboundLocal "resp"), s2)
  else
    match respOpt with
    | some r => (Except.error (PyErr.garbled (some cmd) (some nTries) r), s2)
    | none => (Except.error (PyErr.unboundLocal "_resp"), s2)

/- ===== memory watermark coordinator (libabc.py:1353-1420) ===== -/

/-- Source: `get_mem_status` (libabc.py:1353-1372).  The source issues its command
via `safe_exec_abc(cmd, retries=2, watermark=None)`; with `watermark=None`
that call is exactly `safeExecCore` (see `safe_exec_abc_watermark_none`).
The reply is decoded, `rstrip`ped, whitespace-split; other than exactly two
fields raises `ABCGarbledRespError(_resp)`; `int()` failures raise
`ValueError`; the percentage is `round(alloc / total * 100, 2)`
(`ZeroDivisionError` when `total == 0`).  `memOf` is the dict `m` built at
libabc.py:1364-1368. -/
def memOf (fa al : Int) : MemStatus :=
  { free := fa, alloc := al, total := fa + al,
    pct := round2 ((al : ℚ) / ((fa : ℚ) + (al : ℚ)) * 100) }

def get_mem_status (s : ABCSt) : Except PyErr MemStatus × ABCSt :=
  match safeExecCore WireCmd.memQuery 2 none none s with
  | (Except.error e, s1) => (Except.error e, s1)
  | (Except.ok raw, s1) =>
    let r := rstripCRLF raw
    match pySplitWs r with
    | [a, b] =>
      (match pyInt a with
       | none => (Except.error (PyErr.valueError a), s1)
       | some fa =>
         match pyInt b with
         | none => (Except.error (PyErr.valueError b), s1)
         | some al =>
           if fa + al = 0 then (Except.error PyErr.zeroDiv, s1)
           else
             (Except.ok (memOf fa al),
               { s1 with mem_usage := some (memOf fa al) }))
    | _ => (Except.error (PyErr.garbled none none r), s1)

/-- Source: `request_garbage_collection` (libabc.py:1374-1397): a single direct
`_pyb.exec('gc.collect()')` — no retry wrapper, no `_pyb_cmd_cnt` increment —
returning the decoded reply with trailing CR/LF stripped and inner CR/LF
replaced by a space. -/
def request_garbage_collection (s : ABCSt) : Except PyErr String × ABCSt :=
  let p := pybExec WireCmd.gcCollect s
  (Except.ok (String.mk (replaceCRLF ' ' (rstripCRLF p.1).data)), p.2)

/-- Source: `check_mem_maybe_gcollect` (libabc.py:1399-1420): only
`ABCGarbledRespError` from `get_mem_status` is caught (logged, `False`
returned); any other exception propagates.  A collection is requested
exactly when `pct > watermark` (strict). -/
def check_mem_maybe_gcollect (watermark : ℚ) (s : ABCSt) :
    Except PyErr Bool × ABCSt :=
  match get_mem_status s with
  | (Except.error e, s1) =>
    if isGarbled e then (Except.ok false, s1) else (Except.error e, s1)
  | (Except.ok m, s1) =>
    if m.pct > watermark then
      match request_garbage_collection s1 with
      | (Except.error e, s2) => (Except.error e, s2)
      | (Except.ok _, s2) => (Except.ok true, s2)
    else (Except.ok false, s1)

/-- Source: `safe_exec_abc` (libabc.py:1423-1516): optional watermark pre-check
(its Boolean result `did_gc` is only used for debug logging), then the retry
loop and validation of `safeExecCore`. -/
def safe_exec_abc (cmd : WireCmd) (retries : Nat) (minlen nfields : Option Nat)
    (watermark : Option ℚ) (s : ABCSt) : Except PyErr String × ABCSt :=
  match watermark with
  | none => safeExecCore cmd retries minlen nfields s
  | some w =>
    match check_mem_maybe_gcollect w s with
    | (Except.error e, s1) => (Except.error e, s1)
    | (Except.ok _, s1) => safeExecCore cmd retries minlen nfields s1

/- ===== heater actuation (libabc.py:828-1158) ===== -/

def NUM_HEATERS : Nat := 10
def HTR_IDX_INVALID : Int := -98
def GET_HTR_STATUS_FAILED : Int := -99

/-- Source: `_is_valid_heater` (libabc.py:832-844): `None` and out-of-range indices
are invalid (logged, no exception). -/
def is_valid_heater : Option Int → Bool
  | none => false
  | some i => !(decide (i < 0) || decide (i ≥ (NUM_HEATERS : Int)))

/-- the interpreter imports issued at the end of `upy_ini`
(libabc.py:1335-1339), each via `safe_exec_abc(cmd, minlen=0, watermark=None)`. -/
def upyIniCmds : List String :=
  [ "import sensors as s", "import heaters as h", "import tmp117 as t",
    "import host_format as hf", "import gc", "s.print_ms(False)" ]

def runImports : List String → ABCSt → Except PyErr Unit × ABCSt
  | [], st => (Except.ok (), st)
  | c :: cs, st =>
    match safe_exec_abc (WireCmd.generic c) 1 (some 0) none none st with
    | (Except.error e, st1) => (Except.error e, st1)
    | (Except.ok _, st1) => runImports cs st1

/-- Source: `upy_ini` (libabc.py:1312-1343), modelled at the wire level: the
pyboard/raw-repl session establishment (external Transport collaborator,
guarded by `func_timeout`) is reduced to setting `upy_status`; the six li-
brary-import commands are then issued as in the source. -/
def upy_ini (s : ABCSt) : Except PyErr Unit × ABCSt :=
  runImports upyIniCmds { s with upy_status := true }

/-- Source: `_ensure_con` (libabc.py:828-830). -/
def ensure_con (s : ABCSt) : Except PyErr Unit × ABCSt :=
  if s.upy_status then (Except.ok (), s) else upy_ini s

/-- the per-actuator disable loop of `heaters_ini` (libabc.py:859-863):
`safe_exec_abc(cmd, retries=3, watermark=None)` then `time.sleep(0.1)`. -/
def heatersIniLoop : List Nat → ABCSt → Except PyErr Unit × ABCSt
  | [], st => (Except.ok (), st)
  | i :: rest, st =>
    match safe_exec_abc (WireCmd.hActivate false (some (i : Int))) 3 none none
        none st with
    | (Except.error e, st1) => (Except.error e, st1)
    | (Except.ok _, st1) => heatersIniLoop rest (pySleep (1 / 10) st1)

/-- Source: `heaters_ini` (libabc.py:846-869): if not yet ready, ensure the
connection, run one manual watermark check at 50%, disable each actuator
individually with 100 ms spacing, enable the global heater thread
(`h.activate(True)`, default watermark 80.0), and mark ready. -/
def heaters_ini (s : ABCSt) : Except PyErr Unit × ABCSt :=
  if s.heaters_status then (Except.ok (), s)
  else
    match ensure_con s with
    | (Except.error e, s1) => (Except.error e, s1)
    | (Except.ok _, s1) =>
      match check_mem_maybe_gcollect 50 s1 with
      | (Except.error e, s2) => (Except.error e, s2)
      | (Except.ok _, s2) =>
        match heatersIniLoop (List.range NUM_HEATERS) s2 with
        | (Except.error e, s3) => (Except.error e, s3)
        | (Except.ok _, s3) =>
          match safe_exec_abc (WireCmd.hActivate true none) 3 none none
              (some 80) s3 with
          | (Except.error e, s4) => (Except.error e, s4)
          | (Except.ok _, s4) => (Except.ok (), { s4 with heaters_status := true })

/-- result of `get_heaters_status` (libabc.py:872-937): the parsed vectors,
or the `[False]*5` sentinel returned on a length mismatch. -/
inductive HtrStatusRes where
  | vecs (h_obj : List ℚ) (h_status : List Int) (h_avg : List ℚ)
      (h_pwm : List Int) (h_on : List Nat)
  | lenMismatch
deriving DecidableEq, Repr

/-- Source: `[float(x) for x in l]` (first failure raises `ValueError`). -/
def mapFloat : List String → Except PyErr (List ℚ)
  | [] => Except.ok []
  | t :: ts =>
    match pyFloat t with
    | none => Except.error (PyErr.valueError t)
    | some q =>
      match mapFloat ts with
      | Except.error e => Except.error e
      | Except.ok qs => Except.ok (q :: qs)

/-- Source: `[int(x) for x in l]` (first failure raises `ValueError`). -/
def mapInt : List String → Except PyErr (List Int)
  | [] => Except.ok []
  | t :: ts =>
    match pyInt t with
    | none => Except.error (PyErr.valueError t)
    | some q =>
      match mapInt ts with
      | Except.error e => Except.error e
      | Except.ok qs => Except.ok (q :: qs)

/-- Python `s.split(',')` (explicit separator: empty parts kept). -/
def splitComma (s : String) : List String :=
  (splitChars (fun c => c = ',') s.data).map String.mk

/-- Source: `get_heaters_status` (libabc.py:872-937).  The CSV bookkeeping fields
(`_newdata2csv_htr`, `last_htr_data`, `last_htr_list`) are outside the model.
The status command goes through `safe_exec_abc(..., retries=3)` with the
default watermark of 80.0; a residual `"GC: "` in the cleaned reply raises
`ABCGarbledRespError`; the four vectors are parsed from the `$...*` tokens
(the first token with its leading character dropped); a length mismatch on
the temperature or status vector returns the sentinel. -/
def get_heaters_status (s : ABCSt) : Except PyErr HtrStatusRes × ABCSt :=
  match ensure_con s with
  | (Except.error e, s1) => (Except.error e, s1)
  | (Except.ok _, s1) =>
    match safe_exec_abc WireCmd.hStatusQuery 3 none none (some 80) s1 with
    | (Except.error e, s2) => (Except.error e, s2)
    | (Except.ok raw, s2) =>
      let dat := cleanResp raw
      if strContainsSub dat "GC: " then
        (Except.error (PyErr.garbled none none dat), s2)
      else
        let mm := pyFindall dat
        match mm.get? 0 with
        | none => (Except.error PyErr.indexErr, s2)
        | some f0 =>
          match mapFloat (splitComma (String.mk (f0.data.drop 1))) with
          | Except.error e => (Except.error e, s2)
          | Except.ok h_avg =>
            if h_avg.length ≠ NUM_HEATERS then (Except.ok HtrStatusRes.lenMismatch, s2)
            else
              match mm.get? 1 with
              | none => (Except.error PyErr.indexErr, s2)
              | some f1 =>
                match mapFloat (splitComma f1) with
                | Except.error e => (Except.error e, s2)
                | Except.ok h_obj =>
                  match mm.get? 2 with
                  | none => (Except.error PyErr.indexErr, s2)
                  | some f2 =>
                    match mapInt (splitComma f2) with
                    | Except.error e => (Except.error e, s2)
                    | Except.ok h_status =>
                      match mm.get? 3 with
                      | none => (Except.error PyErr.indexErr, s2)
                      | some f3 =>
                        match mapInt (splitComma f3) with
                        | Except.error e => (Except.error e, s2)
                        | Except.ok h_pwm =>
                          if h_status.length ≠ NUM_HEATERS then
                            (Except.ok HtrStatusRes.lenMismatch, s2)
                          else
                            let h_on := (List.range NUM_HEATERS).map
                              (fun hi => if hi ∈ s2.active_heaters then 1 else 0)
                            (Except.ok (HtrStatusRes.vecs h_obj h_status h_avg
                              h_pwm h_on), s2)

/-- value returned by `get_heaters_objective` (libabc.py:1089-1108): the
whole vector, one scalar, an error code (`-98`/`-99`), or the Python `False`
that surfaces when the status call returned its sentinel and `_idx` is
`None`. -/
inductive ObjRes where
  | vec (v : List ℚ)
  | scalar (q : ℚ)
  | code (c : Int)
  | pyFalse
deriving DecidableEq, Repr

/-- Source: `get_heaters_objective` (libabc.py:1089-1108): `ABCGarbledRespError`
from the status query is caught and turned into `GET_HTR_STATUS_FAILED`;
a valid index selects one objective (an out-of-bounds numpy access raises
`IndexError`; indexing the `False` sentinel raises `TypeError`); an invalid
index yields `HTR_IDX_INVALID`. -/
def get_heaters_objective (_idx : Option Int) (s : ABCSt) :
    Except PyErr ObjRes × ABCSt :=
  match ensure_con s with
  | (Except.error e, s1) => (Except.error e, s1)
  | (Except.ok _, s1) =>
    match get_heaters_status s1 with
    | (Except.error e, s2) =>
      if isGarbled e then (Except.ok (ObjRes.code GET_HTR_STATUS_FAILED), s2)
      else (Except.error e, s2)
    | (Except.ok res, s2) =>
      match _idx with
      | none =>
        (match res with
         | HtrStatusRes.vecs h_obj _ _ _ _ => (Except.ok (ObjRes.vec h_obj), s2)
         | HtrStatusRes.lenMismatch => (Except.ok ObjRes.pyFalse, s2))
      | some i =>
        if is_valid_heater (some i) then
          match res with
          | HtrStatusRes.vecs h_obj _ _ _ _ =>
            (match h_obj.get? i.toNat with
             | some q => (Except.ok (ObjRes.scalar q), s2)
             | none => (Except.error PyErr.indexErr, s2))
          | HtrStatusRes.lenMismatch => (Except.error PyErr.typeErr, s2)
        else (Except.ok (ObjRes.code HTR_IDX_INVALID), s2)

/-- Source: `h_t_obj in [self._HTR_IDX_INVALID, self._GET_HTR_STATUS_FAILED]`
(libabc.py:1016): Python `in` compares by value, so a scalar equal to one of
the integer codes also matches. -/
def objIsErrCode : ObjRes → Bool
  | ObjRes.code c => decide (c = HTR_IDX_INVALID) || decide (c = GET_HTR_STATUS_FAILED)
  | ObjRes.scalar q =>
    decide (q = (HTR_IDX_INVALID : ℚ)) || decide (q = (GET_HTR_STATUS_FAILED : ℚ))
  | _ => false

/-- Source: `set_heater_active` (libabc.py:989-1038).  Invalid index: `False`
(soft-fail).  Lazily runs `heaters_ini` when not ready.  Activating fetches
the current objective first; with `warn_below_deg` set, an error-code
objective aborts with `False` and a low objective only logs a warning; the
activation command then goes out with retries=3 (default watermark 80.0).
Deactivating sends the single-actuator disable and, when `clear_t_obj`,
resets that actuator's objective to `heater_def_tmp`; returns `True`. -/
def set_heater_active (_state : Bool) (_idx : Option Int)
    (warn_below_deg : Option ℚ) (clear_t_obj : Bool) (s : ABCSt) :
    Except PyErr Bool × ABCSt :=
  if !is_valid_heater _idx then (Except.ok false, s)
  else
    match (if s.heaters_status = false then heaters_ini s else (Except.ok (), s)) with
    | (Except.error e, s1) => (Except.error e, s1)
    | (Except.ok _, s1) =>
      if _state then
        match get_heaters_objective _idx s1 with
        | (Except.error e, s2) => (Except.error e, s2)
        | (Except.ok h_t_obj, s2) =>
          let doActivate := fun (s3 : ABCSt) =>
            match safe_exec_abc (WireCmd.hActivate true _idx) 3 none none
                (some 80) s3 with
            | (Except.error e, s4) => (Except.error e, s4)
            | (Except.ok _, s4) => (Except.ok true, s4)
          match warn_below_deg with
          | none => doActivate s2
          | some _ =>
            if objIsErrCode h_t_obj then (Except.ok false, s2)
            else doActivate s2
      else
        match safe_exec_abc (WireCmd.hActivate false _idx) 3 none none
            (some 80) s1 with
        | (Except.error e, s2) => (Except.error e, s2)
        | (Except.ok _, s2) =>
          if clear_t_obj then
            match safe_exec_abc (WireCmd.hObjective s2.heater_def_tmp _idx) 3
                none none (some 80) s2 with
            | (Except.error e, s3) => (Except.error e, s3)
            | (Except.ok _, s3) => (Except.ok true, s3)
          else (Except.ok true, s2)

/-- Source: `reset_htr_objectives` (libabc.py:1078-1086): one
`h.objective(t, idx=None)` command, `t` defaulting to `heater_def_tmp`. -/
def reset_htr_objectives (t_obj : Option ℚ) (s : ABCSt) :
    Except PyErr Unit × ABCSt :=
  let t := match t_obj with | none => s.heater_def_tmp | some t => t
  match safe_exec_abc (WireCmd.hObjective t none) 3 none none (some 80) s with
  | (Except.error e, s1) => (Except.error e, s1)
  | (Except.ok _, s1) => (Except.ok (), s1)

/-- Source: `disable_heater_global_thread` (libabc.py:1068-1074): one
`h.activate(False)` command, then `heaters_status = False`. -/
def disable_heater_global_thread (s : ABCSt) : Except PyErr Unit × ABCSt :=
  match safe_exec_abc (WireCmd.hActivate false none) 3 none none (some 80) s with
  | (Except.error e, s1) => (Except.error e, s1)
  | (Except.ok _, s1) => (Except.ok (), { s1 with heaters_status := false })

/-- the per-actuator loop of `heaters_deactivate_all` (libabc.py:1056-1058):
`set_heater_active(False, i, clear_t_obj=False)` then `time.sleep(0.1)`. -/
def deactAllLoop : List Nat → ABCSt → Except PyErr Unit × ABCSt
  | [], st => (Except.ok (), st)
  | i :: rest, st =>
    match set_heater_active false (some (i : Int)) none false st with
    | (Except.error e, st1) => (Except.error e, st1)
    | (Except.ok _, st1) => deactAllLoop rest (pySleep (1 / 10) st1)

/-- Source: `heaters_deactivate_all` (libabc.py:1040-1065): deactivate actuators
0..9 one by one with 100 ms spacing, reset all objectives in one command,
then disable the global heater thread. -/
def heaters_deactivate_all (s : ABCSt) : Except PyErr Unit × ABCSt :=
  match deactAllLoop (List.range NUM_HEATERS) s with
  | (Except.error e, s1) => (Except.error e, s1)
  | (Except.ok _, s1) =>
    match reset_htr_objectives none s1 with
    | (Except.error e, s2) => (Except.error e, s2)
    | (Except.ok _, s2) => disable_heater_global_thread s2

/- ===== the sampling loop's sensor phase (libabc.py:1196-1227) ===== -/

/-- one `snsr_func()` call of `loop`, abstracted to its observable behaviour:
the five `sample_*` methods are wire-I/O bound; for the fencing logic all
that matters is that the method ran (trace marker `j`) and what it raised. -/
def runSampler (j : Nat) (out : Option PyErr) (s : ABCSt) :
    Except PyErr Unit × ABCSt :=
  let s1 := { s with trace := s.trace ++ [Ev.mark j] }
  match out with
  | none => (Except.ok (), s1)
  | some e => (Except.error e, s1)

/-- the `for snsr_func, do_snsr in zip(snsr_funcs, snsr_sel_flags)` loop of
`loop` (libabc.py:1205-1227): a disabled class is skipped; a raised
`ABCTooShortRespError`/`ABCGarbledRespError` is logged, counted in
`cnt_caught_exceptions`, and the loop continues; any other exception
propagates. -/
def loopSensorPhase : Nat → List (Bool × Option PyErr) → ABCSt →
    Except PyErr Unit × ABCSt
  | _, [], s => (Except.ok (), s)
  | j, (flag, out) :: rest, s =>
    if flag then
      match runSampler j out s with
      | (Except.ok _, s1) => loopSensorPhase (j + 1) rest s1
      | (Except.error e, s1) =>
        if isCaughtKind e then
          loopSensorPhase (j + 1) rest
            { s1 with cnt_caught_exceptions := s1.cnt_caught_exceptions + 1 }
        else (Except.error e, s1)
    else loopSensorPhase (j + 1) rest s

/-- the indices of the enabled sensor classes, numbering from `j`. -/
def enabledIdx : Nat → List (Bool × Option PyErr) → List Nat
  | _, [] => []
  | j, (flag, _) :: rest =>
    if flag then j :: enabledIdx (j + 1) rest else enabledIdx (j + 1) rest

/-- how many enabled sensor classes raise. -/
def caughtCount (l : List (Bool × Option PyErr)) : Nat :=
  l.countP (fun p => p.1 && p.2.isSome)

/- ===== deadline scheduler (libabc.py:1241-1276) ===== -/

/-- the loop-timing fields of `ABCHandle` together with the host clock
(`utcnow()` in seconds). -/
structure SchedSt where
  now : ℚ
  t_start_iter : ℚ
  t_end : ℚ
  td_loop_delay : ℚ
  cnt_toolong_loops : Nat
deriving DecidableEq, Repr

/-- Source: `consume_idle_time` (libabc.py:1241-1265) with the host clock explicit:
`e1` is the wall time spent between the two `utcnow()` reads (the timing log
line), `e2` the time between sleep end and the final `utcnow()`;
`time.sleep(d)` advances the clock by exactly `d`.  A negative first idle
measurement logs an overrun and bumps `cnt_toolong_loops`; sleep happens
only when the re-measured idle time is positive; finally
`t_end = utcnow() + td_loop_delay`.  Returns the new state and the slept
duration. -/
def consume_idle_time (s : SchedSt) (e1 e2 : ℚ) : SchedSt × ℚ :=
  let now1 := s.now
  let t_idle1 := s.t_end - now1
  let cnt :=
    if t_idle1 < 0 then s.cnt_toolong_loops + 1 else s.cnt_toolong_loops
  let now2 := now1 + e1
  let t_idle2 := s.t_end - now2
  let slept := if t_idle2 > 0 then t_idle2 else 0
  let now3 := now2 + slept + e2
  let tEnd3 := now3 + s.td_loop_delay
  ({ s with now := now3, t_end := tEnd3, cnt_toolong_loops := cnt }, slept)

/-- Source: `prepare_initial_loop_timer` (libabc.py:1267-1276). -/
def prepare_initial_loop_timer (ref : Option ℚ) (s : SchedSt) : SchedSt :=
  match ref with
  | none => { s with t_end := s.now + s.td_loop_delay }
  | some r => { s with t_end := r + s.td_loop_delay }

/- ===== trace observations used by the theorems ===== -/

/-- is this event a single-actuator deactivation command? -/
def isDeactEv : Ev → Bool
  | Ev.wire (WireCmd.hActivate false (some _)) => true
  | _ => false

/-- is this event a heater actuation command (activate/deactivate or
objective write)? -/
def actuationEv : Ev → Bool
  | Ev.wire (WireCmd.hActivate _ _) => true
  | Ev.wire (WireCmd.hObjective _ _) => true
  | _ => false

/-- the sleeps issued strictly between consecutive events satisfying `p`:
one list of sleep durations per inter-event gap (the total time separating
the two events is at least the sum of these sleeps — command round-trips
only add to it). -/
def gapSleeps (p : Ev → Bool) : List Ev → List ℚ → Bool → List (List ℚ)
  | [], _, _ => []
  | e :: rest, acc, started =>
    if p e then
      (if started then acc.reverse :: gapSleeps p rest [] true
       else gapSleeps p rest [] true)
    else
      match e with
      | Ev.sleepEv d => gapSleeps p rest (d :: acc) started
      | _ => gapSleeps p rest acc started

/-- the `mark` events of a trace (which sampling callbacks ran, in order). -/
def markEvents (tr : List Ev) : List Nat :=
  tr.filterMap (fun e => match e with | Ev.mark j => some j | _ => none)

/-- a baseline engine state: connected, transport stream `t`, heater
subsystem readiness `hs`, default objective `defT`, empty trace. -/
def mkSt (t : Nat → String) (hs : Bool) (defT : ℚ) : ABCSt :=
  { transport := t, wire_sent := 0, pyb_cmd_cnt := 0, last_pyb_ntries := 0,
    last_pyb_resp := none, last_pyb_fields := [], mem_usage := none,
    upy_status := true, heaters_status := hs, heater_def_tmp := defT,
    active_heaters := [], cnt_caught_exceptions := 0, trace := [] }

/-- three-reply transport: reply `r0` to the first command, `r1` to the
second, `r2` to every later one. -/
def transport3 (r0 r1 r2 : String) : Nat → String :=
  fun n => if n = 0 then r0 else if n = 1 then r1 else r2

/-- a transport stream for runs of `safe_exec_abc(..., watermark=80.0)`
calls: the two memory-introspection attempts of each call's watermark
pre-check are answered with contaminated text (so the pre-check's
`GarbledResponse` is swallowed and no collection is requested), and the
command's own reply is clean. -/
def gcTransport : Nat → String :=
  fun n => if n % 3 = 2 then "$ok*" else "x GC: total y"

/- ===================================================================== -/
/- ===== theorems ===== -/
/- ===================================================================== -/

set_option maxRecDepth 100000

/- ----- shared helper lemmas ----- -/

theorem backoff_climb_cur (c : BackoffCtr) :
    c.climb_level.cur_level =
      if c.cur_level * 2 > c.max_count then c.max_count else c.cur_level * 2 :=
  rfl

theorem backoffInv_climb {c : BackoffCtr} (h : BackoffInv c) :
    BackoffInv c.climb_level := by
  obtain ⟨h1, h2⟩ := h
  have hmaxf : c.climb_level.max_count = c.max_count := rfl
  unfold BackoffInv
  rw [backoff_climb_cur, hmaxf]
  by_cases hcap : c.cur_level * 2 > c.max_count
  · rw [if_pos hcap]
    exact ⟨Or.inr rfl, le_max_left _ _⟩
  · rw [if_neg hcap]
    push_neg at hcap
    refine ⟨?_, le_trans hcap (le_max_left _ _)⟩
    rcases h1 with ⟨k, hk⟩ | hmax
    · exact Or.inl ⟨k + 1, by rw [hk, pow_succ]⟩
    · right
      omega

theorem backoffInv_hit {c : BackoffCtr} (h : BackoffInv c) :
    BackoffInv (c.hit).2 := by
  unfold BackoffCtr.hit
  by_cases hge : c._n + 1 ≥ c.cur_level * c.per_level
  · rw [if_pos hge]
    exact backoffInv_climb h
  · rw [if_neg hge]
    exact h

theorem backoffInv_reset (c : BackoffCtr) : BackoffInv c.reset :=
  ⟨Or.inl ⟨0, rfl⟩, le_max_right _ _⟩

theorem backoffInv_runOps {c : BackoffCtr} (h : BackoffInv c) :
    ∀ ops : List BOp, BackoffInv (c.runOps ops) := by
  intro ops
  induction ops generalizing c with
  | nil => exact h
  | cons op rest ih =>
    cases op with
    | hitOp => exact ih (backoffInv_hit h)
    | resetOp => exact ih (backoffInv_reset c)

theorem backoff_hitRun_succ (c : BackoffCtr) (k : Nat) :
    c.hitRun (k + 1) = (c.hit).1 :: (c.hit).2.hitRun k :=
  rfl

/-- with `per_level = 1`, a `True` is yielded within `k` hits as soon as
`cur_level ≤ _n + k`. -/
theorem backoff_true_within (k : Nat) :
    ∀ c : BackoffCtr, c.per_level = 1 → 1 ≤ k → c.cur_level ≤ c._n + k →
      true ∈ c.hitRun k := by
  induction k with
  | zero => intro c _ hk _; exact (Nat.not_succ_le_zero 0 hk).elim
  | succ k ih =>
    intro c hper hk h
    rw [backoff_hitRun_succ]
    by_cases hge : c._n + 1 ≥ c.cur_level * c.per_level
    · have h1 : (c.hit).1 = true := by unfold BackoffCtr.hit; rw [if_pos hge]
      rw [h1]
      exact List.mem_cons_self _ _
    · have h1 : c.hit = (false, { c with _n := c._n + 1 }) := by
        unfold BackoffCtr.hit
        rw [if_neg hge]
      rw [h1]
      rw [hper, Nat.mul_one] at hge
      refine List.mem_cons_of_mem _ ?_
      have hk1 : 1 ≤ k := by omega
      exact ih { c with _n := c._n + 1 } hper hk1
        (by show c.cur_level ≤ c._n + 1 + k; omega)

/- ----- C9 ----- -/

/-- C9 counterexample: the claimed invariant — `cur_level` a power-of-two
multiple of `per_level`, capped at `max_count` — already fails for a fresh
`BackoffCtr(per_level=3, max_count=360)` (empty operation sequence):
`cur_level` is initialised to `1`, which is no power-of-two multiple of 3. -/
theorem C9_counterexample :
    ¬ ((∃ k, ((BackoffCtr.init 3 360).runOps []).cur_level =
          2 ^ k * ((BackoffCtr.init 3 360).runOps []).per_level) ∧
        ((BackoffCtr.init 3 360).runOps []).cur_level ≤
          ((BackoffCtr.init 3 360).runOps []).max_count) := by
  rintro ⟨⟨k, hk⟩, -⟩
  have hpos : 0 < 2 ^ k := pow_pos (by norm_num) k
  have h1 : ((BackoffCtr.init 3 360).runOps []).cur_level = 1 := rfl
  have h3 : ((BackoffCtr.init 3 360).runOps []).per_level = 3 := rfl
  rw [h1, h3] at hk
  omega

/-- C9 (amended): after every finite sequence of `hit()`/`reset()` calls on
any fresh `BackoffCtr`, `cur_level` is a power of two or equals `max_count`
(the capped value), and it never exceeds `max max_count 1`; `per_level` does
not enter the level value — it only scales the hit threshold. -/
theorem C9_backoff_level_invariant (per max_c : Nat) (ops : List BOp) :
    BackoffInv ((BackoffCtr.init per max_c).runOps ops) := by
  refine backoffInv_runOps ?_ ops
  exact ⟨Or.inl ⟨0, rfl⟩, le_max_right _ _⟩

/- ----- C8 ----- -/

/-- C8 counterexample: for `BackoffCtr(per_level=1, max_count=360)` the
first two `hit()` calls yield `[True, False]` — the second call does not
yield `True`, so the claimed schedule 1, 2, 4, 8, 16, ... is wrong. -/
theorem C8_counterexample :
    (BackoffCtr.init 1 360).hitRun 2 = [true, false] := by
  decide

/-- C8 (amended): with `per_level=1, max_count=360`, successive `hit()`
calls yield `True` at call numbers 1, 3, 7, 15, 31, 63, 127, 255, 511 and
then every 360 calls (871, ...) — the numbers `2^k - 1` until the cap, not
`2^k`; from any state with `cur_level ≤ 360` (guaranteed by the level
invariant) a `True` comes within 360 calls, so the gap between consecutive
`True`s never exceeds 360; and after `reset()` the very next `hit()` yields
`True` again. -/
theorem C8_backoff_schedule :
    (BackoffCtr.init 1 360).trueCalls 1000 =
        [1, 3, 7, 15, 31, 63, 127, 255, 511, 871] ∧
      (∀ c : BackoffCtr, c.per_level = 1 → c.cur_level ≤ 360 →
        true ∈ c.hitRun 360) ∧
      (∀ c : BackoffCtr, c.per_level = 1 → ((c.reset).hit).1 = true) := by
  refine ⟨by decide, ?_, ?_⟩
  · intro c h1 h2
    exact backoff_true_within 360 c h1 (by omega) (by omega)
  · intro c hper
    unfold BackoffCtr.reset BackoffCtr.hit
    rw [if_pos]
    show 0 + 1 ≥ 1 * c.per_level
    rw [hper]

/-- C8 witness: the quantified parts of `C8_backoff_schedule` applied to the
fresh `BackoffCtr(per_level=1, max_count=360)`. -/
theorem C8_backoff_schedule_witness :
    true ∈ (BackoffCtr.init 1 360).hitRun 360 ∧
      (((BackoffCtr.init 1 360).reset).hit).1 = true :=
  ⟨C8_backoff_schedule.2.1 (BackoffCtr.init 1 360) rfl (by decide),
   C8_backoff_schedule.2.2 (BackoffCtr.init 1 360) rfl⟩

/- ----- C5 ----- -/

/-- C5 (confirmed): for any scheduler state and any nonnegative intervening
wall-time `e1` (between the two idle measurements) and `e2` (between sleep
end and the final clock read), `consume_idle_time` (the `consume=true` tail
of `loop`) re-anchors the next deadline at the actual post-sleep wake time
plus the cadence — so whenever the wake time differs from the old deadline,
the new deadline is not `old deadline + cadence`; the slept duration is
never negative; and an iteration that overruns its deadline bumps
`cnt_toolong_loops` by exactly 1 and sleeps 0, while a non-overrunning one
leaves the counter unchanged. -/
theorem C5_deadline_scheduler (s : SchedSt) (e1 e2 : ℚ)
    (h1 : 0 ≤ e1) (h2 : 0 ≤ e2) :
    (consume_idle_time s e1 e2).1.t_end =
        (consume_idle_time s e1 e2).1.now + s.td_loop_delay ∧
      ((consume_idle_time s e1 e2).1.now ≠ s.t_end →
        (consume_idle_time s e1 e2).1.t_end ≠ s.t_end + s.td_loop_delay) ∧
      0 ≤ (consume_idle_time s e1 e2).2 ∧
      (s.t_end - s.now < 0 →
        (consume_idle_time s e1 e2).1.cnt_toolong_loops =
            s.cnt_toolong_loops + 1 ∧
          (consume_idle_time s e1 e2).2 = 0) ∧
      (0 ≤ s.t_end - s.now →
        (consume_idle_time s e1 e2).1.cnt_toolong_loops =
          s.cnt_toolong_loops) := by
  unfold consume_idle_time
  dsimp only
  by_cases hover : s.t_end - s.now < 0
  · rw [if_pos hover]
    have hsleep : ¬ s.t_end - (s.now + e1) > 0 := by linarith
    rw [if_neg hsleep]
    refine ⟨rfl, ?_, le_refl 0, fun _ => ⟨rfl, rfl⟩, fun hc => absurd hover (by linarith)⟩
    intro hne heq
    exact hne (by linarith [add_right_cancel heq])
  · rw [if_neg hover]
    by_cases hsleep : s.t_end - (s.now + e1) > 0
    · rw [if_pos hsleep]
      refine ⟨rfl, ?_, by linarith, fun hc => absurd hc hover, fun _ => rfl⟩
      intro hne heq
      exact hne (by linarith [add_right_cancel heq])
    · rw [if_neg hsleep]
      refine ⟨rfl, ?_, le_refl 0, fun hc => absurd hc hover, fun _ => rfl⟩
      intro hne heq
      exact hne (by linarith [add_right_cancel heq])

/-- C5 witness: a cadence-5 iteration that started at 0, overran its
deadline 5 by 2 seconds (clock now 7): the overrun counter goes to 1 and no
sleep happens. -/
theorem C5_deadline_scheduler_witness :
    (consume_idle_time
        { now := 7, t_start_iter := 0, t_end := 5, td_loop_delay := 5,
          cnt_toolong_loops := 0 } 1 0).1.cnt_toolong_loops = 0 + 1 ∧
      (consume_idle_time
        { now := 7, t_start_iter := 0, t_end := 5, td_loop_delay := 5,
          cnt_toolong_loops := 0 } 1 0).2 = 0 :=
  (C5_deadline_scheduler
    { now := 7, t_start_iter := 0, t_end := 5, td_loop_delay := 5,
      cnt_toolong_loops := 0 } 1 0 (by norm_num) (le_refl 0)).2.2.2.1
    (by norm_num)

/- ----- C10 ----- -/

/-- C10 counterexample: the claim asserts that a `retries=0` call sends no
command over the Transport and fails with the unbound-local error.  With
the public default `watermark=80.0`, a `retries=0` call sends the watermark
pre-check's memory-introspection commands first (here two attempts, so wire
count 2, not 0), and on a clean two-token non-integer memory reply it fails
with `ValueError` from `int()` — not with the unbound-local error. -/
theorem C10_counterexample :
    (safe_exec_abc (WireCmd.generic "s.read_temps()") 0 none none (some 80)
          (mkSt (fun _ => "x GC: total y") false 0)).2.wire_sent = 2 ∧
      (safe_exec_abc (WireCmd.generic "s.read_temps()") 0 none none (some 80)
          (mkSt (fun _ => "abc def") false 0)).1 =
        Except.error (PyErr.valueError "abc") :=
  ⟨by decide, rfl⟩

/-- C10 (amended): with `retries = 0` (the Python guard
`while n_tries < retries` also never fires for negative values) the retry
loop body never runs, the loop itself sends nothing, and the call never
returns bytes.  With `watermark=None` no wire command at all is sent and
the failure branch reads the never-assigned local `_resp`, raising
`UnboundLocalError` — not the documented `ABCGarbledRespError`.  With the
default `watermark=80.0` the pre-check still sends its memory-introspection
commands over the same transport before the loop (two attempts here, their
contaminated replies swallowed), after which the call fails with the same
`UnboundLocalError`; but a pre-check failure that is not
`ABCGarbledRespError` — such as `int()`'s `ValueError` on a two-token
non-integer reply — propagates out of the call instead. -/
theorem C10_zero_retries_unbound_local :
    (∀ (cmd : WireCmd) (minlen nfields : Option Nat) (s : ABCSt),
      (safe_exec_abc cmd 0 minlen nfields none s).1 =
          Except.error (PyErr.unboundLocal "_resp") ∧
        (safe_exec_abc cmd 0 minlen nfields none s).2.wire_sent = s.wire_sent ∧
        (safe_exec_abc cmd 0 minlen nfields none s).2.trace = s.trace ∧
        (∀ c n r, (safe_exec_abc cmd 0 minlen nfields none s).1 ≠
          Except.error (PyErr.garbled c n r))) ∧
    (∀ (cmd : WireCmd) (minlen nfields : Option Nat),
      (safe_exec_abc cmd 0 minlen nfields (some 80)
            (mkSt (fun _ => "x GC: total y") false 0)).1 =
          Except.error (PyErr.unboundLocal "_resp") ∧
        (safe_exec_abc cmd 0 minlen nfields (some 80)
            (mkSt (fun _ => "x GC: total y") false 0)).2.trace =
          [Ev.wire WireCmd.memQuery, Ev.wire WireCmd.memQuery]) ∧
    (∀ (cmd : WireCmd) (minlen nfields : Option Nat),
      (safe_exec_abc cmd 0 minlen nfields (some 80)
            (mkSt (fun _ => "abc def") false 0)).1 =
        Except.error (PyErr.valueError "abc")) := by
  refine ⟨?_, ?_, ?_⟩
  · intro cmd minlen nfields s
    refine ⟨rfl, rfl, rfl, ?_⟩
    intro c n r h
    have h2 : PyErr.unboundLocal "_resp" = PyErr.garbled c n r := by
      have h0 : (safe_exec_abc cmd 0 minlen nfields none s).1 =
          Except.error (PyErr.unboundLocal "_resp") := rfl
      rw [h0] at h
      exact Except.error.inj h
    exact PyErr.noConfusion h2
  · intro cmd minlen nfields
    exact ⟨rfl, rfl⟩
  · intro cmd minlen nfields
    rfl


/- ----- C4 ----- -/

theorem loopSensorPhase_disabled (j : Nat) (out : Option PyErr)
    (rest : List (Bool × Option PyErr)) (s : ABCSt) :
    loopSensorPhase j ((false, out) :: rest) s = loopSensorPhase (j + 1) rest s :=
  rfl

theorem loopSensorPhase_ok (j : Nat) (rest : List (Bool × Option PyErr))
    (s : ABCSt) :
    loopSensorPhase j ((true, none) :: rest) s =
      loopSensorPhase (j + 1) rest
        { s with trace := s.trace ++ [Ev.mark j] } :=
  rfl

theorem loopSensorPhase_err (j : Nat) (e : PyErr)
    (rest : List (Bool × Option PyErr)) (s : ABCSt)
    (hce : isCaughtKind e = true) :
    loopSensorPhase j ((true, some e) :: rest) s =
      loopSensorPhase (j + 1) rest
        { s with
          trace := s.trace ++ [Ev.mark j]
          cnt_caught_exceptions := s.cnt_caught_exceptions + 1 } := by
  have h0 : loopSensorPhase j ((true, some e) :: rest) s =
      if isCaughtKind e = true then
        loopSensorPhase (j + 1) rest
          { s with
            trace := s.trace ++ [Ev.mark j]
            cnt_caught_exceptions := s.cnt_caught_exceptions + 1 }
      else (Except.error e, { s with trace := s.trace ++ [Ev.mark j] }) := rfl
  rw [h0, if_pos hce]

/-- C4 (confirmed): for every pattern of enabled flags and of
`TooShortResponse`/`GarbledResponse` outcomes, the sensor phase of `loop`
finishes normally, every enabled sensor class executes (in order), and
`cnt_caught_exceptions` grows by exactly the number of enabled classes that
raised — no such error aborts the iteration or skips later classes. -/
theorem C4_sensor_fencing (sensors : List (Bool × Option PyErr)) :
    ∀ (j : Nat) (s : ABCSt),
      (∀ p ∈ sensors, Option.all isCaughtKind p.2 = true) →
      (loopSensorPhase j sensors s).1 = Except.ok () ∧
        (loopSensorPhase j sensors s).2.trace =
          s.trace ++ (enabledIdx j sensors).map Ev.mark ∧
        (loopSensorPhase j sensors s).2.cnt_caught_exceptions =
          s.cnt_caught_exceptions + caughtCount sensors := by
  induction sensors with
  | nil =>
    intro j s _
    refine ⟨rfl, by simp [loopSensorPhase, enabledIdx], ?_⟩
    show s.cnt_caught_exceptions = s.cnt_caught_exceptions + caughtCount []
    simp [caughtCount]
  | cons hd rest ih =>
    intro j s hall
    obtain ⟨flag, out⟩ := hd
    have hrest : ∀ p ∈ rest, Option.all isCaughtKind p.2 = true :=
      fun p hp => hall p (List.mem_cons_of_mem _ hp)
    cases flag with
    | false =>
      rw [loopSensorPhase_disabled]
      obtain ⟨h1, h2, h3⟩ := ih (j + 1) s hrest
      refine ⟨h1, ?_, ?_⟩
      · rw [h2]
        have henb : enabledIdx j ((false, out) :: rest) =
            enabledIdx (j + 1) rest := rfl
        rw [henb]
      · rw [h3]
        have hcc : caughtCount ((false, out) :: rest) = caughtCount rest := by
          unfold caughtCount
          rw [List.countP_cons]
          simp
        rw [hcc]
    | true =>
      cases out with
      | none =>
        rw [loopSensorPhase_ok]
        obtain ⟨h1, h2, h3⟩ :=
          ih (j + 1) { s with trace := s.trace ++ [Ev.mark j] } hrest
        refine ⟨h1, ?_, ?_⟩
        · rw [h2]
          have henb : enabledIdx j ((true, (none : Option PyErr)) :: rest) =
              j :: enabledIdx (j + 1) rest := rfl
          rw [henb]
          simp
        · rw [h3]
          have hcc : caughtCount ((true, (none : Option PyErr)) :: rest) =
              caughtCount rest := by
            unfold caughtCount
            rw [List.countP_cons]
            simp
          rw [hcc]
      | some e =>
        have hce : isCaughtKind e = true := by
          simpa using hall (true, some e) (List.mem_cons_self _ _)
        rw [loopSensorPhase_err j e rest s hce]
        obtain ⟨h1, h2, h3⟩ :=
          ih (j + 1)
            { s with
              trace := s.trace ++ [Ev.mark j]
              cnt_caught_exceptions := s.cnt_caught_exceptions + 1 } hrest
        refine ⟨h1, ?_, ?_⟩
        · rw [h2]
          have henb : enabledIdx j ((true, some e) :: rest) =
              j :: enabledIdx (j + 1) rest := rfl
          rw [henb]
          simp
        · rw [h3]
          have hcc : caughtCount ((true, some e) :: rest) =
              caughtCount rest + 1 := by
            unfold caughtCount
            rw [List.countP_cons]
            simp
          rw [hcc]
          show s.cnt_caught_exceptions + 1 + caughtCount rest =
            s.cnt_caught_exceptions + (caughtCount rest + 1)
          omega
/-- C4 witness: five sensor classes — a garbled read, a clean read, a
disabled class, a short read, a clean read: the phase completes, the enabled
four all run, and exactly two exceptions are counted. -/
theorem C4_sensor_fencing_witness :
    (loopSensorPhase 0
          [(true, some (PyErr.garbled none none "x")), (true, none),
            (false, some PyErr.tooShort), (true, some PyErr.tooShort),
            (true, none)]
          (mkSt (fun _ => "") false 0)).1 = Except.ok () ∧
      (loopSensorPhase 0
          [(true, some (PyErr.garbled none none "x")), (true, none),
            (false, some PyErr.tooShort), (true, some PyErr.tooShort),
            (true, none)]
          (mkSt (fun _ => "") false 0)).2.trace =
        (mkSt (fun _ => "") false 0).trace ++
          (enabledIdx 0
              [(true, some (PyErr.garbled none none "x")), (true, none),
                (false, some PyErr.tooShort), (true, some PyErr.tooShort),
                (true, none)]).map Ev.mark ∧
      (loopSensorPhase 0
          [(true, some (PyErr.garbled none none "x")), (true, none),
            (false, some PyErr.tooShort), (true, some PyErr.tooShort),
            (true, none)]
          (mkSt (fun _ => "") false 0)).2.cnt_caught_exceptions =
        (mkSt (fun _ => "") false 0).cnt_caught_exceptions +
          caughtCount
            [(true, some (PyErr.garbled none none "x")), (true, none),
              (false, some PyErr.tooShort), (true, some PyErr.tooShort),
              (true, none)] :=
  C4_sensor_fencing
    [(true, some (PyErr.garbled none none "x")), (true, none),
      (false, some PyErr.tooShort), (true, some PyErr.tooShort),
      (true, none)]
    0 (mkSt (fun _ => "") false 0) (by decide)

/- ----- protocol executor helper lemmas ----- -/

theorem execAttempts_zero (cmd : WireCmd) (n : Nat) (raw last : Option String)
    (s : ABCSt) :
    execAttempts cmd 0 n raw last s = ((false, n, raw, last), s) :=
  rfl

theorem execAttempts_succ (cmd : WireCmd) (f n : Nat) (raw last : Option String)
    (s : ABCSt) :
    execAttempts cmd (f + 1) n raw last s =
      if contaminated (cleanResp (s.transport s.wire_sent)) then
        execAttempts cmd f (n + 1) (some (s.transport s.wire_sent))
          (some (cleanResp (s.transport s.wire_sent)))
          { s with
            wire_sent := s.wire_sent + 1
            pyb_cmd_cnt := s.pyb_cmd_cnt + 1
            trace := s.trace ++ [Ev.wire cmd] }
      else
        ((true, n, some (s.transport s.wire_sent),
            some (cleanResp (s.transport s.wire_sent))),
          { s with
            wire_sent := s.wire_sent + 1
            pyb_cmd_cnt := s.pyb_cmd_cnt + 1
            trace := s.trace ++ [Ev.wire cmd] }) :=
  rfl

/-- Source: `safe_exec_abc` with `watermark=None` is exactly the core retry loop —
no watermark pre-check happens. -/
theorem safe_exec_abc_watermark_none (cmd : WireCmd) (retries : Nat)
    (minlen nfields : Option Nat) (s : ABCSt) :
    safe_exec_abc cmd retries minlen nfields none s =
      safeExecCore cmd retries minlen nfields s :=
  rfl

/-- a clean first reply is accepted immediately: one wire command, attempt
counter 0, raw bytes returned (no `minlen`/`nfields` gates requested). -/
theorem safeExecCore_none_first_clean (cmd : WireCmd) (f : Nat) (s : ABCSt)
    (hcl : contaminated (cleanResp (s.transport s.wire_sent)) = false) :
    safeExecCore cmd (f + 1) none none s =
      (Except.ok (s.transport s.wire_sent),
        { s with
          wire_sent := s.wire_sent + 1
          pyb_cmd_cnt := s.pyb_cmd_cnt + 1
          trace := s.trace ++ [Ev.wire cmd]
          last_pyb_ntries := 0
          last_pyb_resp := some (cleanResp (s.transport s.wire_sent))
          last_pyb_fields := pyFindall (cleanResp (s.transport s.wire_sent)) }) := by
  have hne : ¬ (contaminated (cleanResp (s.transport s.wire_sent)) = true) := by
    simp [hcl]
  unfold safeExecCore
  rw [execAttempts_succ, if_neg hne]
  rfl

/- ----- C1 ----- -/

/-- C1 counterexample: with `retries=3` and transport replies
[contaminated, contaminated, clean], `safe_exec_abc` does return the clean
raw payload, but it records `_last_pyb_ntries = 2` (the number of
contaminated attempts), not the claimed attempt count 3. -/
theorem C1_counterexample :
    (safe_exec_abc (WireCmd.generic "s.read_temps()") 3 none none none
          (mkSt (transport3 "a GC: total 1\r\n" "b GC: total 2\r\n" "$ok*\r\n")
            false 0)).1 = Except.ok "$ok*\r\n" ∧
      (safe_exec_abc (WireCmd.generic "s.read_temps()") 3 none none none
          (mkSt (transport3 "a GC: total 1\r\n" "b GC: total 2\r\n" "$ok*\r\n")
            false 0)).2.last_pyb_ntries ≠ 3 := by
  constructor
  · rfl
  · decide

/-- C1 (amended): with `retries=3`, `watermark=None` and the first two
replies contaminated, `safe_exec_abc` returns the clean third raw payload
and records attempt count **2** in `_last_pyb_ntries` (the loop breaks
before counting the successful attempt); when the third reply is also
contaminated, it raises `GarbledResponse` carrying the command, attempt
count 3 and the last contaminated text, and records 3. -/
theorem C1_retry_semantics (r0 r1 r2 : String) (cmd : WireCmd)
    (h0 : contaminated (cleanResp r0) = true)
    (h1 : contaminated (cleanResp r1) = true) :
    (contaminated (cleanResp r2) = false →
      (safe_exec_abc cmd 3 none none none
            (mkSt (transport3 r0 r1 r2) false 0)).1 = Except.ok r2 ∧
        (safe_exec_abc cmd 3 none none none
            (mkSt (transport3 r0 r1 r2) false 0)).2.last_pyb_ntries = 2) ∧
    (contaminated (cleanResp r2) = true →
      (safe_exec_abc cmd 3 none none none
            (mkSt (transport3 r0 r1 r2) false 0)).1 =
          Except.error (PyErr.garbled (some cmd) (some 3) (cleanResp r2)) ∧
        (safe_exec_abc cmd 3 none none none
            (mkSt (transport3 r0 r1 r2) false 0)).2.last_pyb_ntries = 3) := by
  constructor
  · intro h2
    constructor
    · simp [safe_exec_abc, safeExecCore, execAttempts_succ, execAttempts_zero,
        mkSt, transport3, h0, h1, h2, minlenViolated, nfieldsViolated]
    · simp [safe_exec_abc, safeExecCore, execAttempts_succ, execAttempts_zero,
        mkSt, transport3, h0, h1, h2, minlenViolated, nfieldsViolated]
  · intro h2
    constructor
    · simp [safe_exec_abc, safeExecCore, execAttempts_succ, execAttempts_zero,
        mkSt, transport3, h0, h1, h2, minlenViolated, nfieldsViolated]
    · simp [safe_exec_abc, safeExecCore, execAttempts_succ, execAttempts_zero,
        mkSt, transport3, h0, h1, h2, minlenViolated, nfieldsViolated]

/-- C1 witness: `C1_retry_semantics` applied to concrete contaminated and
clean replies, in both the [contaminated, contaminated, clean] and the
all-contaminated scenario. -/
theorem C1_retry_semantics_witness :
    ((safe_exec_abc (WireCmd.generic "s.read_pwr()") 3 none none none
          (mkSt (transport3 "GC: total 9\r\n" "GC: total 9\r\n" "$5*\r\n")
            false 0)).1 = Except.ok "$5*\r\n" ∧
      (safe_exec_abc (WireCmd.generic "s.read_pwr()") 3 none none none
          (mkSt (transport3 "GC: total 9\r\n" "GC: total 9\r\n" "$5*\r\n")
            false 0)).2.last_pyb_ntries = 2) ∧
    ((safe_exec_abc (WireCmd.generic "s.read_pwr()") 3 none none none
          (mkSt (transport3 "GC: total 9\r\n" "GC: total 9\r\n" "GC: total 9\r\n")
            false 0)).1 =
        Except.error (PyErr.garbled (some (WireCmd.generic "s.read_pwr()"))
          (some 3) (cleanResp "GC: total 9\r\n")) ∧
      (safe_exec_abc (WireCmd.generic "s.read_pwr()") 3 none none none
          (mkSt (transport3 "GC: total 9\r\n" "GC: total 9\r\n" "GC: total 9\r\n")
            false 0)).2.last_pyb_ntries = 3) :=
  ⟨(C1_retry_semantics "GC: total 9\r\n" "GC: total 9\r\n" "$5*\r\n"
      (WireCmd.generic "s.read_pwr()") (by decide) (by decide)).1 (by decide),
   (C1_retry_semantics "GC: total 9\r\n" "GC: total 9\r\n" "GC: total 9\r\n"
      (WireCmd.generic "s.read_pwr()") (by decide) (by decide)).2 (by decide)⟩

/- ----- C3 ----- -/

/-- C3 counterexample: with a contaminated first reply and a clean two-int
second one, `get_mem_status` sends **two** wire commands (not one) and then
succeeds — it does go through the contamination-retry wrapper, refuting
"exactly one wire command and no contamination-based retry". -/
theorem C3_counterexample :
    (get_mem_status
          (mkSt (transport3 "x GC: total 99\r\n" "100 100\r\n" "") false 0)).2.wire_sent
        = 2 ∧
      (get_mem_status
          (mkSt (transport3 "x GC: total 99\r\n" "100 100\r\n" "") false 0)).1 =
        Except.ok (memOf 100 100) := by
  exact ⟨by decide, rfl⟩

/-- C3 (amended): `get_mem_status` issues its introspection command through
the retry wrapper `safe_exec_abc` with `retries=2` and `watermark=None` —
up to one contamination-based retry but no watermark pre-check (on a
contaminated-then-clean transport its trace holds exactly the two `memQuery`
transactions and nothing else); it is `request_garbage_collection` that
bypasses the wrapper: for every state it performs exactly one direct wire
transaction (`gc.collect()`), with no retry, no `_pyb_cmd_cnt` increment,
and no failure path. -/
theorem C3_mem_status_paths :
    ((get_mem_status
          (mkSt (transport3 "x GC: total 99\r\n" "100 100\r\n" "") false 0)).1 =
        Except.ok (memOf 100 100) ∧
      (get_mem_status
          (mkSt (transport3 "x GC: total 99\r\n" "100 100\r\n" "") false 0)).2.trace =
        [Ev.wire WireCmd.memQuery, Ev.wire WireCmd.memQuery]) ∧
    (∀ s : ABCSt,
      (request_garbage_collection s).2.trace =
          s.trace ++ [Ev.wire WireCmd.gcCollect] ∧
        (request_garbage_collection s).2.wire_sent = s.wire_sent + 1 ∧
        (request_garbage_collection s).2.pyb_cmd_cnt = s.pyb_cmd_cnt ∧
        (request_garbage_collection s).1 =
          Except.ok
            (String.mk (replaceCRLF ' ' (rstripCRLF (s.transport s.wire_sent)).data))) := by
  refine ⟨⟨rfl, rfl⟩, ?_⟩
  intro s
  exact ⟨rfl, rfl, rfl, rfl⟩

/- ----- check_mem_maybe_gcollect reduction lemmas (shared) ----- -/

theorem check_mem_of_ok (w : ℚ) (s s1 : ABCSt) (m : MemStatus)
    (h : get_mem_status s = (Except.ok m, s1)) :
    check_mem_maybe_gcollect w s =
      if m.pct > w then (Except.ok true, (request_garbage_collection s1).2)
      else (Except.ok false, s1) := by
  unfold check_mem_maybe_gcollect
  rw [h]
  dsimp only
  by_cases hw : m.pct > w
  · rw [if_pos hw, if_pos hw]
    rfl
  · rw [if_neg hw, if_neg hw]

theorem check_mem_of_garbled (w : ℚ) (s s1 : ABCSt) (e : PyErr)
    (h : get_mem_status s = (Except.error e, s1)) (hg : isGarbled e = true) :
    check_mem_maybe_gcollect w s = (Except.ok false, s1) := by
  unfold check_mem_maybe_gcollect
  rw [h]
  dsimp only
  rw [if_pos hg]

theorem check_mem_of_other_error (w : ℚ) (s s1 : ABCSt) (e : PyErr)
    (h : get_mem_status s = (Except.error e, s1)) (hg : isGarbled e = false) :
    check_mem_maybe_gcollect w s = (Except.error e, s1) := by
  unfold check_mem_maybe_gcollect
  rw [h]
  dsimp only
  rw [if_neg (by simp [hg])]

/- ----- C6 ----- -/

/-- C6 (confirmed): for every reply decoding to two integers `free` and
`alloc` (with a nonzero total), `get_mem_status` computes
`pct = round(alloc / (alloc + free) * 100, 2)`; the reply `"1000 9000"`
gives `usedPct` exactly 90; and `check_mem_maybe_gcollect w` on that reply
requests a remote collection if and only if `90 > w` — strict, so at
`w = 90` no collection is triggered. -/
theorem C6_watermark_numerics :
    (∀ (r ta tb : String) (f a : Int) (s : ABCSt),
        s.transport s.wire_sent = r →
        contaminated (cleanResp r) = false →
        pySplitWs (rstripCRLF r) = [ta, tb] →
        pyInt ta = some f → pyInt tb = some a → f + a ≠ 0 →
        (get_mem_status s).1 = Except.ok (memOf f a)) ∧
    (memOf 1000 9000).pct = 90 ∧
    (∀ w : ℚ,
      (check_mem_maybe_gcollect w (mkSt (fun _ => "1000 9000") false 0)).1 =
          Except.ok (decide ((90 : ℚ) > w)) ∧
        (check_mem_maybe_gcollect w (mkSt (fun _ => "1000 9000") false 0)).2.trace =
          if (90 : ℚ) > w then [Ev.wire WireCmd.memQuery, Ev.wire WireCmd.gcCollect]
          else [Ev.wire WireCmd.memQuery]) := by
  have hpct : (memOf 1000 9000).pct = 90 := by
    norm_num [memOf, round2, round_eq]
  refine ⟨?_, hpct, ?_⟩
  · intro r ta tb f a s htr hcl hsplit hfa hab htot
    have hcl' : contaminated (cleanResp (s.transport s.wire_sent)) = false := by
      rw [htr]; exact hcl
    unfold get_mem_status
    rw [safeExecCore_none_first_clean WireCmd.memQuery 1 s hcl']
    dsimp only
    rw [htr, hsplit]
    dsimp only
    rw [hfa, hab]
    dsimp only
    rw [if_neg htot]
  · intro w
    have h1 : (get_mem_status (mkSt (fun _ => "1000 9000") false 0)).1 =
        Except.ok (memOf 1000 9000) := rfl
    have hfull : get_mem_status (mkSt (fun _ => "1000 9000") false 0) =
        (Except.ok (memOf 1000 9000),
          (get_mem_status (mkSt (fun _ => "1000 9000") false 0)).2) := by
      rw [← h1]
    rw [check_mem_of_ok w _ _ _ hfull, hpct]
    by_cases hw : (90 : ℚ) > w
    · rw [if_pos hw, if_pos hw, decide_eq_true hw]
      refine ⟨rfl, ?_⟩
      rfl
    · rw [if_neg hw, if_neg hw, decide_eq_false hw]
      exact ⟨rfl, rfl⟩

/-- C6 witness: `C6_watermark_numerics` applied to the reply `"1000 9000"`:
the computed status is `memOf 1000 9000` with `usedPct = 90` exactly, a
check at watermark 90.0 does not collect, and one at 89.9 does. -/
theorem C6_watermark_numerics_witness :
    (get_mem_status (mkSt (fun _ => "1000 9000") false 0)).1 =
        Except.ok (memOf 1000 9000) ∧
      (memOf 1000 9000).pct = 90 ∧
      (check_mem_maybe_gcollect 90 (mkSt (fun _ => "1000 9000") false 0)).1 =
        Except.ok false ∧
      (check_mem_maybe_gcollect (899 / 10)
          (mkSt (fun _ => "1000 9000") false 0)).1 = Except.ok true := by
  refine ⟨?_, C6_watermark_numerics.2.1, ?_, ?_⟩
  · exact C6_watermark_numerics.1 "1000 9000" "1000" "9000" 1000 9000
      (mkSt (fun _ => "1000 9000") false 0) rfl (by decide) (by decide)
      (by decide) (by decide) (by decide)
  · have h := (C6_watermark_numerics.2.2 90).1
    rw [h]
    norm_num
  · have h := (C6_watermark_numerics.2.2 (899 / 10)).1
    rw [h]
    norm_num

/- ----- C7 ----- -/

/-- C7 counterexample: the clean reply `"abc def"` splits into exactly two
tokens but they are not integers, so `get_mem_status` raises `ValueError`,
not `GarbledResponse` — and `check_mem_maybe_gcollect` (which catches only
`ABCGarbledRespError`) propagates it instead of returning `False`. -/
theorem C7_counterexample :
    (get_mem_status (mkSt (fun _ => "abc def") false 0)).1 =
        Except.error (PyErr.valueError "abc") ∧
      (check_mem_maybe_gcollect 80 (mkSt (fun _ => "abc def") false 0)).1 =
        Except.error (PyErr.valueError "abc") :=
  ⟨rfl, rfl⟩

/-- C7 (amended): `get_mem_status` raises `GarbledResponse` exactly when the
clean reply does not split into two whitespace tokens, and
`check_mem_maybe_gcollect` catches that and returns `False`; but a two-token
reply whose first token is not an integer raises `ValueError`, which
`check_mem_maybe_gcollect` propagates — "never propagates the failure"
holds only for the `GarbledResponse` kind. -/
theorem C7_mem_failure_handling :
    (∀ (r : String) (s : ABCSt) (w : ℚ),
        s.transport s.wire_sent = r →
        contaminated (cleanResp r) = false →
        (pySplitWs (rstripCRLF r)).length ≠ 2 →
        (get_mem_status s).1 =
            Except.error (PyErr.garbled none none (rstripCRLF r)) ∧
          (check_mem_maybe_gcollect w s).1 = Except.ok false) ∧
    (∀ (r ta tb : String) (s : ABCSt) (w : ℚ),
        s.transport s.wire_sent = r →
        contaminated (cleanResp r) = false →
        pySplitWs (rstripCRLF r) = [ta, tb] →
        pyInt ta = none →
        (get_mem_status s).1 = Except.error (PyErr.valueError ta) ∧
          (check_mem_maybe_gcollect w s).1 =
            Except.error (PyErr.valueError ta)) := by
  constructor
  · intro r s w htr hcl hlen
    have hcl' : contaminated (cleanResp (s.transport s.wire_sent)) = false := by
      rw [htr]; exact hcl
    have h1 : (get_mem_status s).1 =
        Except.error (PyErr.garbled none none (rstripCRLF r)) := by
      unfold get_mem_status
      rw [safeExecCore_none_first_clean WireCmd.memQuery 1 s hcl']
      dsimp only
      rw [htr]
      rcases hl : pySplitWs (rstripCRLF r) with _ | ⟨a, _ | ⟨b, _ | ⟨c, t⟩⟩⟩
      · rfl
      · rfl
      · exact absurd (by rw [hl]; rfl) hlen
      · rfl
    have hfull : get_mem_status s =
        (Except.error (PyErr.garbled none none (rstripCRLF r)),
          (get_mem_status s).2) := by
      rw [← h1]
    refine ⟨h1, ?_⟩
    rw [check_mem_of_garbled w s _ _ hfull rfl]
  · intro r ta tb s w htr hcl hsplit hfa
    have hcl' : contaminated (cleanResp (s.transport s.wire_sent)) = false := by
      rw [htr]; exact hcl
    have h1 : (get_mem_status s).1 = Except.error (PyErr.valueError ta) := by
      unfold get_mem_status
      rw [safeExecCore_none_first_clean WireCmd.memQuery 1 s hcl']
      dsimp only
      rw [htr, hsplit]
      dsimp only
      rw [hfa]
    have hfull : get_mem_status s =
        (Except.error (PyErr.valueError ta), (get_mem_status s).2) := by
      rw [← h1]
    refine ⟨h1, ?_⟩
    rw [check_mem_of_other_error w s _ _ hfull rfl]

/-- C7 witness: `C7_mem_failure_handling` applied to the three-token reply
`"1 2 3"` (garbled, caught, `False` returned) and to the two-token
non-integer reply `"abc def"` (`ValueError` propagated). -/
theorem C7_mem_failure_handling_witness :
    ((get_mem_status (mkSt (fun _ => "1 2 3") false 0)).1 =
        Except.error (PyErr.garbled none none (rstripCRLF "1 2 3")) ∧
      (check_mem_maybe_gcollect 80 (mkSt (fun _ => "1 2 3") false 0)).1 =
        Except.ok false) ∧
    ((get_mem_status (mkSt (fun _ => "abc def") false 0)).1 =
        Except.error (PyErr.valueError "abc") ∧
      (check_mem_maybe_gcollect 80 (mkSt (fun _ => "abc def") false 0)).1 =
        Except.error (PyErr.valueError "abc")) :=
  ⟨C7_mem_failure_handling.1 "1 2 3" (mkSt (fun _ => "1 2 3") false 0) 80
      rfl (by decide) (by decide),
   C7_mem_failure_handling.2 "abc def" "abc" "def"
      (mkSt (fun _ => "abc def") false 0) 80 rfl (by decide) (by decide)
      (by decide)⟩

/- ----- C2 ----- -/

set_option maxHeartbeats 1000000

/-- C2 (confirmed): starting from a ready heater subsystem
(`heaters_status` true — the claim's precondition) with the configured
default objective 0 and a transport whose watermark pre-checks are benign
(contaminated introspection replies, swallowed by
`check_mem_maybe_gcollect`, and clean command replies),
`heaters_deactivate_all` issues exactly 10 single-actuator deactivate
commands for indices 0..9 in increasing order — each one its own wire
transaction, never two actuators in one — followed by exactly one
reset-all-objectives command and then exactly one global-thread-disable
command, in that order and with no other actuation command; each pair of
consecutive deactivate commands is separated by a `time.sleep(0.1)`, i.e.
by at least 100 ms of wall time; and the call completes normally. -/
theorem C2_deactivate_all_sequenced :
    ((heaters_deactivate_all (mkSt gcTransport true 0)).2.trace.filter
          actuationEv =
        ((List.range NUM_HEATERS).map
          (fun i => Ev.wire (WireCmd.hActivate false (some (i : Int))))) ++
        [Ev.wire (WireCmd.hObjective 0 none),
          Ev.wire (WireCmd.hActivate false none)]) ∧
      gapSleeps isDeactEv
          (heaters_deactivate_all (mkSt gcTransport true 0)).2.trace [] false =
        List.replicate 9 [(1 : ℚ) / 10] ∧
      (∀ g ∈ gapSleeps isDeactEv
          (heaters_deactivate_all (mkSt gcTransport true 0)).2.trace [] false,
        (1 : ℚ) / 10 ≤ g.sum) ∧
      (heaters_deactivate_all (mkSt gcTransport true 0)).1 = Except.ok () := by
  have hgaps : gapSleeps isDeactEv
      (heaters_deactivate_all (mkSt gcTransport true 0)).2.trace [] false =
      List.replicate 9 [(1 : ℚ) / 10] := rfl
  refine ⟨rfl, hgaps, ?_, rfl⟩
  rw [hgaps]
  intro g hg
  rw [List.eq_of_mem_replicate hg]
  norm_num

/-- C2 witness: the gap bound of `C2_deactivate_all_sequenced` discharged at
the concrete gap `[0.1]`, plus the normal completion of the run. -/
theorem C2_deactivate_all_sequenced_witness :
    (1 : ℚ) / 10 ≤ List.sum [(1 : ℚ) / 10] ∧
      (heaters_deactivate_all (mkSt gcTransport true 0)).1 = Except.ok () :=
  ⟨C2_deactivate_all_sequenced.2.2.1 [(1 : ℚ) / 10]
      (by
        rw [C2_deactivate_all_sequenced.2.1]
        exact List.mem_replicate.mpr ⟨by norm_num, rfl⟩),
    C2_deactivate_all_sequenced.2.2.2⟩
